import Mathlib

/-!
Verification development for the PrintPath G-code post-processor
(`src/scripts/arc.py`, `src/scripts/orbit.py`, `src/main.py`).

The two generator scripts and the main-app toolpath parser work line by line on
text, discriminating lines with regular expressions.  Here a line is modelled by
the syntactic class those patterns distinguish (`GLine`), with numeric fields as
exact rationals standing for the Python floats; all arithmetic the scripts do on
those floats (`+`, `-`, `*`, `/`, `abs`, `min`, `max`, `round`) is modelled
exactly on `ℚ`.  Injected output lines are modelled structurally (`OutLine`)
with their exact numeric payloads; the source renders those numbers with fixed
decimal precision (3 decimals for positions, 0 for feed rates) when producing
text, which is a presentation step not modelled here.  `math.cos`/`math.sin`
composed with `math.radians` are abstracted as function parameters `cosD sinD`.
-/

namespace PrintPath

/-- Canonical model of one input G-code line: the syntactic classes that
`arc.py`, `orbit.py` and `main.py` distinguish with their regular expressions.
Whitespace and letter case are abstracted to the canonical form each pattern
expects, and numeric literals are assumed well formed. -/
inductive GLine where
  /-- `G0`/`G1` with optional `X`/`Y`/`Z`/`E` fields in canonical order,
  optionally followed by a trailing `;LAYER:n` comment (which `re.search`
  still finds on such a line). -/
  | move (g1 : Bool) (x y z e : Option ℚ) (layerTag : Option ℕ)
  /-- a line starting `G90`. -/
  | g90
  /-- a line starting `G91`. -/
  | g91
  /-- a line `;LAYER:n`. -/
  | layerC (n : ℕ)
  /-- a line `;LAYER_CHANGE`. -/
  | layerChangeC
  /-- a line containing `;Z:q`. -/
  | zC (q : ℚ)
  /-- a line `;HEIGHT:...`. -/
  | heightC
  /-- a comment `; total layer number: n`. -/
  | totalLayerNumberC (n : ℕ)
  /-- a line starting `LAYERS: n`. -/
  | layersC (n : ℕ)
  /-- a line `;TOTAL_LAYERS:n`. -/
  | totalLayersC (n : ℕ)
  /-- a line `;MAX_LAYER:n`. -/
  | maxLayerC (n : ℕ)
  /-- an `EXCLUDE_OBJECT_DEFINE … POLYGON=[[x1,y1],[x2,y2],[x3,y3],[x4,y4]…`
  comment. -/
  | polygonC (x1 y1 x2 y2 x3 y3 x4 y4 : ℚ)
  /-- a bounding-box comment `X[a:b] Y[c:d]`, optionally with `Z[zlo:zhi]`. -/
  | bboxC (a b c d : ℚ) (zr : Option (ℚ × ℚ))
  /-- a comment carrying some of the individual `min_x = v` … `max_z = v`
  slicer parameters. -/
  | paramC (pminx pmaxx pminy pmaxy pmaxz : Option ℚ)
  /-- any line matching none of the patterns above. -/
  | other
deriving DecidableEq

/-- The short identifying text of an injected informational comment line in the
orbit preamble (numeric payloads of these purely informational comments are
elided; the one header comment whose formatting can fail is modelled separately
as `OutLine.bboxComment`). -/
inductive HTag where
  | title | version | firmware | radius | orbitsTotal | perLoop | zOffset
  | firstLayer | interval | startAngle | heightMode | speedDwell | retractZhop
  | modelCenter | totalDetected | totalUnknown | avgHeight
deriving DecidableEq

/-- One line of the rewritten output stream: an original line re-emitted
verbatim, or one of the injected lines.  Injected numeric payloads are the
exact values the source computes (the source formats them with fixed decimal
precision when rendering text). -/
inductive OutLine where
  /-- an original input line, appended unchanged. -/
  | src (l : GLine)
  /-- an injected informational comment line of the orbit preamble. -/
  | comment (t : HTag)
  /-- `; --- PrintPath Arc Snapshot seq/total for Layer layer ---`. -/
  | arcHeader (seq total layer : ℕ)
  /-- `; --- END PrintPath Arc Snapshot ---`. -/
  | arcFooter
  /-- `; --- START PrintPath Corkscrew Snapshot for Layer n ---`. -/
  | orbitHeader (n : ℕ)
  /-- `; --- END PrintPath Corkscrew Snapshot for Layer n ---`. -/
  | orbitFooter (n : ℕ)
  /-- the preamble comment `; Model BBox X:[minx:maxx] Y:[miny:maxy]
  Z:[0.0:maxz]`, which float-formats five metadata values. -/
  | bboxComment (minx maxx miny maxy maxz : ℚ)
  /-- an injected `G90 ; …` line. -/
  | setAbs
  /-- an injected `G91 ; …` line. -/
  | setRel
  /-- the preamble `M82 ; …` line. -/
  | m82
  /-- the blank preamble line. -/
  | blank
  /-- `G1 E{e} F{f}` (negative `e` retracts, positive `e` unretracts). -/
  | extrude (e f : ℚ)
  /-- `G0 Z{z} F{f} ; Z-hop …`. -/
  | zhop (z f : ℚ)
  /-- `G0 X{x} Y{y} Z{z} F{f} ; Move to … snapshot position`. -/
  | moveTo (x y z f : ℚ)
  /-- `G0 X{x} Y{y} Z{z} F{f} ; Return to original print position`. -/
  | returnTo (x y z f : ℚ)
  /-- `G4 P{p} ; Dwell for camera`. -/
  | dwell (p : ℚ)
  /-- `TIMELAPSE_TAKE_FRAME`. -/
  | takeFrame
deriving DecidableEq

/-- Python 3 `round` applied to a float value: round half to even. -/
def pyRound (q : ℚ) : ℤ :=
  let f := ⌊q⌋
  let r := q - (f : ℚ)
  if r < 1/2 then f
  else if 1/2 < r then f + 1
  else if f % 2 = 0 then f else f + 1

/-- Updating one axis of the tracked position from an optional parsed field,
as `arc.py` lines 136–143 and `main.py` lines 406–416 do: an absent field
leaves the axis untouched, in absolute mode a present field is assigned
outright, in relative mode it is added to the prior value. -/
def applyAxis (isRel : Bool) (old : ℚ) : Option ℚ → ℚ
  | none => old
  | some v => if isRel then old + v else v

/-- The four corner names of the `start_corner`/`end_corner` comboboxes. -/
inductive Corner where
  | frontLeft | frontRight | backLeft | backRight
deriving DecidableEq

/-- The `orbit_height` combobox value; the source compares the raw string
against `"Fixed Z"` and `"Current Layer Z"`, so any other string behaves like
neither. -/
inductive HeightMode where
  | fixedZ | currentLayerZ | otherMode
deriving DecidableEq

namespace Arc

/-- The settings `arc.py`'s `run` reads with `settings.get(key, default)`;
the Lean field defaults are exactly the source's `get` defaults.
`start_corner`/`end_corner` are `none` when the configured name is not one of
the four corner names (then `corner_coords.get` falls back). -/
structure Settings where
  travel_speed : ℚ := 9000
  dwell_time : ℚ := 500
  retract_length : ℚ := 1/2
  retract_speed : ℚ := 40
  z_hop_height : ℚ := 1/5
  num_snapshots : ℕ := 10
  vertical_only_percentage : ℚ := 1/5
  horizontal_only_percentage : ℚ := 1/5
  start_corner : Option Corner := some .frontLeft
  end_corner : Option Corner := some .backRight
  arc_control_offset_h : ℚ := 0
  arc_control_offset_v : ℚ := 0
  z_offset_for_snapshots : ℚ := 0
  first_snapshot_layer : ℕ := 1
  camera_distance_z_factor : ℚ := 1
  min_x : ℚ := 0
  max_x : ℚ := 0
  min_y : ℚ := 0
  max_y : ℚ := 0
  min_z_print : ℚ := 0
  max_z : ℚ := 250
deriving DecidableEq

/-- `corner_coords` (arc.py lines 88–93). -/
def cornerXY (s : Settings) : Corner → ℚ × ℚ
  | .frontLeft => (s.min_x, s.min_y)
  | .frontRight => (s.max_x, s.min_y)
  | .backLeft => (s.min_x, s.max_y)
  | .backRight => (s.max_x, s.max_y)

/-- `corner_coords.get(start_corner_name, (min_x_print, min_y_print))`. -/
def p0 (s : Settings) : ℚ × ℚ :=
  (s.start_corner.map (cornerXY s)).getD (s.min_x, s.min_y)

/-- `corner_coords.get(end_corner_name, (max_x_print, max_y_print))`. -/
def p2 (s : Settings) : ℚ × ℚ :=
  (s.end_corner.map (cornerXY s)).getD (s.max_x, s.max_y)

/-- `global_progress_divisor = max(1, num_snapshots - 1)` (line 100).  For
`num_snapshots = 0` the Python value is `max(1, -1) = 1`, which truncated `ℕ`
subtraction reproduces. -/
def global_progress_divisor (s : Settings) : ℕ := max 1 (s.num_snapshots - 1)

/-- `z_range_total = max_z_print - min_z_print` (line 103). -/
def z_range_total (s : Settings) : ℚ := s.max_z - s.min_z_print

/-- The pair `(z_end_vertical_phase_percentage,
z_start_horizontal_phase_percentage)` after the proportional rescale applied
when the configured phase percentages overlap (lines 106–118). -/
def phaseBounds (s : Settings) : ℚ × ℚ :=
  let vp := s.vertical_only_percentage
  let hp := s.horizontal_only_percentage
  if vp + hp > 1 then (vp / (vp + hp), 1 - hp / (vp + hp))
  else (vp, 1 - hp)

/-- A quadratic Bezier coordinate `(1-t)^2 a + 2 (1-t) t c + t^2 b`. -/
def bez (a c b t : ℚ) : ℚ := (1 - t)^2 * a + 2 * (1 - t) * t * c + t^2 * b

/-- Lines 180–288 of arc.py: the snapshot waypoint
`(target_x, target_y, safe_z_for_snapshot)` computed from the snapshot counter
(taken before this snapshot) and the currently tracked Z. -/
def waypoint (s : Settings) (count : ℕ) (cz : ℚ) : ℚ × ℚ × ℚ :=
  let t : ℚ := (count : ℚ) / (global_progress_divisor s : ℚ)
  let zEnd := (phaseBounds s).1
  let zStart := (phaseBounds s).2
  let p0x := (p0 s).1
  let p0y := (p0 s).2
  let p2x := (p2 s).1
  let p2y := (p2 s).2
  let baseV : ℚ := s.min_z_print + z_range_total s * t
  let xyz : ℚ × ℚ × ℚ :=
    if t < zEnd then (p0x, p0y, baseV)
    else if t > zStart then (p2x, p2y, baseV)
    else
      let dur := zStart - zEnd
      let ta0 : ℚ := if dur > 0 then (t - zEnd) / dur else 0
      let ta := max 0 (min 1 ta0)
      let asz := s.min_z_print + z_range_total s * zEnd
      let aez := s.min_z_print + z_range_total s * zStart
      let c1z := max s.min_z_print (min s.max_z ((asz + aez) / 2 + s.arc_control_offset_v))
      if |p2x - p0x| ≥ |p2y - p0y| then
        let c1x := max s.min_x (min s.max_x ((p0x + p2x) / 2 + s.arc_control_offset_h))
        (bez p0x c1x p2x ta, p0y + ta * (p2y - p0y), bez asz c1z aez ta)
      else
        let c1y := max s.min_y (min s.max_y ((p0y + p2y) / 2 + s.arc_control_offset_h))
        (p0x + ta * (p2x - p0x), bez p0y c1y p2y ta, bez asz c1z aez ta)
  (xyz.1, xyz.2.1,
   xyz.2.2 + s.z_hop_height + s.z_offset_for_snapshots
     + cz * (s.camera_distance_z_factor - 1))

/-- The per-pass mutable state of arc.py's `run` (lines 42–122). -/
structure State where
  current_x : ℚ := 0
  current_y : ℚ := 0
  current_z : ℚ := 0
  is_relative : Bool := false
  original_pos_x : ℚ := 0
  original_pos_y : ℚ := 0
  original_pos_z : ℚ := 0
  current_logical_layer : ℕ := 0
  current_z_for_distinct_layer_check : ℚ := -9999
  layers_with_inserted_snapshots : List ℕ := []
  snapshots_taken_count : ℕ := 0
deriving DecidableEq

/-- Lines 128–149: position tracking (saving `original_pos` before a move
updates the position) and the G90/G91 mode switch. -/
def track (st : State) : GLine → State
  | .move _ x y z _ _ =>
    { st with
      original_pos_x := st.current_x
      original_pos_y := st.current_y
      original_pos_z := st.current_z
      current_x := applyAxis st.is_relative st.current_x x
      current_y := applyAxis st.is_relative st.current_y y
      current_z := applyAxis st.is_relative st.current_z z }
  | .g90 => { st with is_relative := false }
  | .g91 => { st with is_relative := true }
  | _ => st

/-- The layer id `re.search("; ?LAYER:(\\d+)", line, re.IGNORECASE)` finds on a
line, if any (arc.py line 155). -/
def layerTag : GLine → Option ℕ
  | .move _ _ _ _ _ t => t
  | .layerC n => some n
  | _ => none

/-- Lines 151–168: layer change detection.  Returns the updated state and
`is_new_logical_layer`.  An explicit marker fires only on a strictly greater
id and leaves the distinct-Z baseline untouched; otherwise a Z more than
0.05 mm above the baseline fires and resets the baseline. -/
def detect (st : State) (l : GLine) : State × Bool :=
  match layerTag l with
  | some n =>
    if n > st.current_logical_layer then
      ({ st with current_logical_layer := n }, true)
    else (st, false)
  | none =>
    if |st.current_z - st.current_z_for_distinct_layer_check| > 1/20 then
      if st.current_z > st.current_z_for_distinct_layer_check then
        ({ st with
            current_z_for_distinct_layer_check := st.current_z
            current_logical_layer := st.current_logical_layer + 1 }, true)
      else (st, false)
    else (st, false)

/-- Lines 176–178: the four-way snapshot insertion condition. -/
def insertCond (s : Settings) (st : State) (isNew : Bool) : Bool :=
  isNew && decide (s.first_snapshot_layer ≤ st.current_logical_layer)
    && !(decide (st.current_logical_layer ∈ st.layers_with_inserted_snapshots))
    && decide (st.snapshots_taken_count < s.num_snapshots)

/-- Lines 291–311: the injected snapshot block and the point recorded for the
viewer.  Note there is no retraction before the travel move; only the
unretraction after the return move is emitted when `retract_length > 0`. -/
def block (s : Settings) (st : State) : List OutLine × (ℚ × ℚ × ℚ) :=
  let w := waypoint s st.snapshots_taken_count st.current_z
  let tx := w.1
  let ty := w.2.1
  let sz := w.2.2
  ([.arcHeader (st.snapshots_taken_count + 1) s.num_snapshots st.current_logical_layer,
    .setAbs,
    .moveTo tx ty sz s.travel_speed]
   ++ (if s.dwell_time > 0 then [.dwell s.dwell_time] else [])
   ++ [.takeFrame,
       .returnTo st.original_pos_x st.original_pos_y st.original_pos_z s.travel_speed]
   ++ (if s.retract_length > 0 then
        [.setRel, .extrude s.retract_length (s.retract_speed * 60), .setAbs]
      else [])
   ++ [.arcFooter],
   (tx, ty, sz))

/-- One iteration of the main loop of arc.py's `run` (lines 125–318): track,
detect, optionally inject a block, then always re-emit the original line. -/
def step (s : Settings) (st : State) (l : GLine) :
    State × List OutLine × List (ℚ × ℚ × ℚ) :=
  let st1 := track st l
  let st2 := (detect st1 l).1
  let isNew := (detect st1 l).2
  if insertCond s st2 isNew then
    ({ st2 with
        snapshots_taken_count := st2.snapshots_taken_count + 1
        layers_with_inserted_snapshots :=
          st2.current_logical_layer :: st2.layers_with_inserted_snapshots },
     (block s st2).1 ++ [.src l], [(block s st2).2])
  else (st2, [.src l], [])

/-- The whole pass from a given state, accumulating output lines and snapshot
points in order. -/
def loop (s : Settings) (st : State) : List GLine → List OutLine × List (ℚ × ℚ × ℚ)
  | [] => ([], [])
  | l :: ls =>
    ((step s st l).2.1 ++ (loop s (step s st l).1 ls).1,
     (step s st l).2.2 ++ (loop s (step s st l).1 ls).2)

/-- arc.py's `run(settings, gcode_lines)`: returns
`(final_gcode, snapshot_points_list)`. -/
def run (s : Settings) (lines : List GLine) : List OutLine × List (ℚ × ℚ × ℚ) :=
  loop s {} lines

/-- The run state after consuming a list of lines (same `step` as `run`). -/
def stateAfter (s : Settings) (lines : List GLine) : State :=
  lines.foldl (fun st l => (step s st l).1) {}

end Arc

namespace Orbit

/-- The Python exception class raised by the orbit preamble when a float
format specifier is applied to `None`. -/
inductive PyErr where
  | typeError
deriving DecidableEq

/-- The settings `orbit.py`'s `run` reads with `settings.get(key, default)`
(and `int(...)`/`float(...)` conversions); Lean field defaults are the
source's `get` defaults.  The metadata fields are `none` when absent from the
settings dict, as `settings.get(key)` then yields `None`. -/
structure Settings where
  firmware : String := "klipper"
  travel_speed : ℚ := 9000
  dwell_time : ℚ := 500
  retract_length : ℚ := 1/2
  retract_speed : ℚ := 40
  z_hop_height : ℚ := 1/5
  num_orbits : ℕ := 3
  snapshots_per_loop : ℕ := 20
  z_offset_for_snapshots : ℚ := 0
  first_snapshot_layer : ℕ := 1
  orbit_radius_xy : ℚ := 30
  start_angle : ℤ := 0
  orbit_height : HeightMode := .currentLayerZ
  fixed_z_height : ℚ := 50
  total_layers : Option ℕ := none
  min_x : Option ℚ := none
  max_x : Option ℚ := none
  min_y : Option ℚ := none
  max_y : Option ℚ := none
  max_z : Option ℚ := none
deriving DecidableEq

/-- The `info` dictionary built by `parse_gcode_info` (orbit.py lines 16–21). -/
structure Info where
  total_layers : Option ℕ := none
  min_x : Option ℚ := none
  max_x : Option ℚ := none
  min_y : Option ℚ := none
  max_y : Option ℚ := none
  max_z : Option ℚ := none
deriving DecidableEq

/-- One loop iteration of `parse_gcode_info` (orbit.py lines 26–126): updates
the info record and the `total_layers_found`/`bbox_found` flags. -/
def infoStep (acc : Info × Bool × Bool) (l : GLine) : Info × Bool × Bool :=
  let info := acc.1
  let tlFound := acc.2.1
  let bbFound := acc.2.2
  let tl : Info × Bool :=
    if tlFound then (info, tlFound) else
      match l with
      | .totalLayerNumberC n => ({ info with total_layers := some n }, true)
      | .layersC n => ({ info with total_layers := some n }, true)
      | .totalLayersC n => ({ info with total_layers := some n }, true)
      | .maxLayerC n => ({ info with total_layers := some (n + 1) }, true)
      | _ => (info, tlFound)
  let info := tl.1
  let tlFound := tl.2
  let bb : Info × Bool :=
    if bbFound then (info, bbFound) else
      match l with
      | .polygonC x1 y1 x2 y2 x3 y3 x4 y4 =>
        ({ info with
            min_x := some (min (min x1 x2) (min x3 x4))
            max_x := some (max (max x1 x2) (max x3 x4))
            min_y := some (min (min y1 y2) (min y3 y4))
            max_y := some (max (max y1 y2) (max y3 y4)) }, true)
      | .bboxC a b c d zr =>
        ({ info with
            min_x := some a
            max_x := some b
            min_y := some c
            max_y := some d
            max_z := match zr with
              | some p => some p.2
              | none => info.max_z }, true)
      | .paramC ox oa oy ob oz =>
        let info2 : Info :=
          { info with
            min_x := info.min_x <|> ox
            max_x := info.max_x <|> oa
            min_y := info.min_y <|> oy
            max_y := info.max_y <|> ob
            max_z := info.max_z <|> oz }
        (info2, info2.min_x.isSome && info2.max_x.isSome
          && info2.min_y.isSome && info2.max_y.isSome)
      | _ => (info, bbFound)
  (bb.1, tlFound, bb.2)

/-- The `parse_gcode_info` loop with its early `break` once both flags are
set (orbit.py lines 128–129). -/
def parseLoop (acc : Info × Bool × Bool) : List GLine → Info
  | [] => acc.1
  | l :: ls =>
    let acc2 := infoStep acc l
    if acc2.2.1 && acc2.2.2 then acc2.1 else parseLoop acc2 ls

/-- orbit.py's `parse_gcode_info(lines)`. -/
def parse_gcode_info (lines : List GLine) : Info :=
  parseLoop ({}, false, false) lines

/-- The model metadata after merging settings values with the local parse
fallback (orbit.py lines 182–199): the local parse runs only when at least
one field is missing, and fills only the missing fields. -/
structure Meta where
  total_layers : Option ℕ
  min_x : Option ℚ
  max_x : Option ℚ
  min_y : Option ℚ
  max_y : Option ℚ
  max_z : Option ℚ
deriving DecidableEq

/-- orbit.py lines 183–199. -/
def resolveMeta (s : Settings) (lines : List GLine) : Meta :=
  if s.total_layers.isNone || s.min_x.isNone || s.max_x.isNone
      || s.min_y.isNone || s.max_y.isNone || s.max_z.isNone then
    let loc := parse_gcode_info lines
    ⟨s.total_layers <|> loc.total_layers,
     s.min_x <|> loc.min_x, s.max_x <|> loc.max_x,
     s.min_y <|> loc.min_y, s.max_y <|> loc.max_y,
     s.max_z <|> loc.max_z⟩
  else
    ⟨s.total_layers, s.min_x, s.max_x, s.min_y, s.max_y, s.max_z⟩

/-- The derived per-run quantities of orbit.py lines 203–267. -/
structure Derived where
  average_layer_height : ℚ
  model_center_x : ℚ
  model_center_y : ℚ
  corkscrew_radius : ℚ
  total_expected_snapshots : ℕ
  layer_interval_per_snapshot : ℤ
  total_angular_sweep_degrees : ℚ
  calculated_max_snapshot_z : ℚ
deriving DecidableEq

/-- orbit.py lines 203–267: average layer height, model centre, radius,
snapshot interval, angular sweep and max snapshot Z. -/
def derive (s : Settings) (m : Meta) : Derived :=
  let avg : ℚ :=
    match m.total_layers, m.max_z with
    | some t, some mz => if 0 < t ∧ 0 < mz then mz / ((max 1 t : ℕ) : ℚ) else 1/5
    | _, _ => 1/5
  let center : ℚ × ℚ :=
    match m.min_x, m.max_x, m.min_y, m.max_y with
    | some a, some b, some c, some d => ((a + b) / 2, (c + d) / 2)
    | _, _, _, _ => (110, 110)
  let radius := max s.orbit_radius_xy 10
  let total : ℕ := s.num_orbits * s.snapshots_per_loop
  let interval0 : ℤ :=
    match m.total_layers with
    | some t =>
      if 0 < t ∧ 0 < total then
        max 1 (pyRound
          (((max 1 ((t : ℤ) - (s.first_snapshot_layer : ℤ) + 1) : ℤ) : ℚ) / (total : ℚ)))
      else 50
    | none => 50
  let interval : ℤ := if total = 0 then -1 else interval0
  let cmax0 : ℚ :=
    match m.max_z with
    | some mz => if 0 < mz then mz + 5 else 250
    | none => 250
  ⟨avg, center.1, center.2, radius, total, interval,
   (s.num_orbits : ℚ) * 360, max cmax0 (s.z_hop_height + 1)⟩

/-- orbit.py lines 270–293: the injected preamble.  Building the model-bbox
comment applies a float format specifier to `min_x`, `max_x`, `min_y`,
`max_y` and `max_z`; if any of them is still `None` this raises `TypeError`
and the whole `run` call aborts. -/
def headerLines (m : Meta) : Except PyErr (List OutLine) :=
  match m.min_x, m.max_x, m.min_y, m.max_y, m.max_z with
  | some a, some b, some c, some d, some e =>
    .ok ([.comment .title, .comment .version, .comment .firmware,
      .comment .radius, .comment .orbitsTotal, .comment .perLoop,
      .comment .zOffset, .comment .firstLayer, .comment .interval,
      .comment .startAngle, .comment .heightMode, .comment .speedDwell,
      .comment .retractZhop,
      .bboxComment a b c d e,
      .comment .modelCenter]
     ++ (if m.total_layers.isSome then [.comment .totalDetected]
         else [.comment .totalUnknown])
     ++ [.comment .avgHeight, .setAbs, .m82, .blank])
  | _, _, _, _, _ => .error .typeError

/-- The per-pass mutable state of orbit.py's `run` (lines 149–161). -/
structure State where
  layer_count : ℕ := 0
  snapshots_taken_count : ℕ := 0
  awaiting_z_for_layer_inference : Bool := false
  current_x : ℚ := 0
  current_y : ℚ := 0
  current_z : ℚ := 0
deriving DecidableEq

/-- orbit.py lines 300–310: update X/Y/Z from a `G0`/`G1` line.  Every parsed
coordinate is assigned outright; G90/G91 are never consulted. -/
def track (st : State) : GLine → State
  | .move _ x y z _ _ =>
    { st with
      current_x := x.getD st.current_x
      current_y := y.getD st.current_y
      current_z := z.getD st.current_z }
  | _ => st

/-- orbit.py lines 312–366: primary layer detection (`;LAYER:n`,
`;LAYER_CHANGE`) followed by Z-comment inference while
`awaiting_z_for_layer_inference`.  Returns the updated state and
`is_explicit_layer_change_comment`. -/
def detect (d : Derived) (st : State) (l : GLine) : State × Bool :=
  let prim : State × Bool :=
    match l with
    | .layerC n =>
      if n > st.layer_count then
        ({ st with layer_count := n, awaiting_z_for_layer_inference := false }, true)
      else (st, false)
    | .layerChangeC =>
      ({ st with awaiting_z_for_layer_inference := true }, true)
    | _ => (st, false)
  let st1 := prim.1
  let st2 :=
    if st1.awaiting_z_for_layer_inference then
      match l with
      | .zC zv =>
        if 0 < d.average_layer_height then
          let inferred := pyRound (zv / d.average_layer_height + 1/1000000)
          if (st1.layer_count : ℤ) < inferred then
            { st1 with
                layer_count := inferred.toNat
                awaiting_z_for_layer_inference := false }
          else st1
        else st1
      | _ => st1
    else st1
  (st2, prim.2)

/-- orbit.py line 371: snapshot conditions are evaluated at explicit layer
markers, or at `;Z:`/`;HEIGHT:` comments when not awaiting Z inference and a
layer has been seen. -/
def isTrigger (st : State) (l : GLine) (isExplicit : Bool) : Bool :=
  isExplicit ||
    (!st.awaiting_z_for_layer_inference && decide (0 < st.layer_count) &&
      (match l with
       | .zC _ => true
       | .heightC => true
       | _ => false))

/-- orbit.py lines 374–383: the snapshot insertion condition. -/
def should_insert_snapshot (s : Settings) (d : Derived) (st : State) : Bool :=
  let after := decide (s.first_snapshot_layer ≤ st.layer_count)
  let onInterval := after && decide (0 < d.layer_interval_per_snapshot)
    && decide (((st.layer_count : ℤ) - (s.first_snapshot_layer : ℤ))
        % d.layer_interval_per_snapshot = 0)
  let within := decide (0 < d.total_expected_snapshots)
    && decide (st.snapshots_taken_count < d.total_expected_snapshots)
  after && onInterval && within

/-- orbit.py lines 402–456: the injected corkscrew snapshot block and the
point recorded for the viewer.  `cosD`/`sinD` abstract
`math.cos(math.radians θ)` and `math.sin(math.radians θ)` on the float angle
in degrees. -/
def block (cosD sinD : ℚ → ℚ) (s : Settings) (d : Derived) (st : State) :
    List OutLine × (ℚ × ℚ × ℚ) :=
  let opx := st.current_x
  let opy := st.current_y
  let opz := st.current_z
  let tz : ℚ :=
    if s.orbit_height = .fixedZ then s.fixed_z_height + s.z_offset_for_snapshots
    else opz + s.z_offset_for_snapshots
  let safe0 := min (max tz s.z_hop_height) d.calculated_max_snapshot_z
  let safe : ℚ :=
    if s.orbit_height = .currentLayerZ ∧ safe0 < s.z_hop_height + 1/2 then
      s.z_hop_height + 1/2
    else safe0
  let angle : ℚ :=
    if 1 < d.total_expected_snapshots then
      let prog0 : ℚ := (st.snapshots_taken_count : ℚ)
        / ((max 1 (d.total_expected_snapshots - 1) : ℕ) : ℚ)
      let prog := max 0 (min 1 prog0)
      (s.start_angle : ℚ) + prog * d.total_angular_sweep_degrees
    else (s.start_angle : ℚ)
  let tx := d.model_center_x + d.corkscrew_radius * cosD angle
  let ty := d.model_center_y + d.corkscrew_radius * sinD angle
  ([.orbitHeader st.layer_count, .setAbs]
   ++ (if s.retract_length > 0 then
        [.setRel, .extrude (-s.retract_length) (s.retract_speed * 60)]
      else [])
   ++ [.zhop (opz + s.z_hop_height) s.travel_speed,
       .setAbs,
       .moveTo tx ty safe s.travel_speed]
   ++ (if s.dwell_time > 0 then [.dwell s.dwell_time] else [])
   ++ [.takeFrame,
       .returnTo opx opy opz s.travel_speed]
   ++ (if s.retract_length > 0 then
        [.setRel, .extrude s.retract_length (s.retract_speed * 60), .setAbs]
      else [])
   ++ [.orbitFooter st.layer_count],
   (tx, ty, safe))

/-- One iteration of the main loop of orbit.py's `run` (lines 299–460):
track, detect, optionally inject a block, then always re-emit the original
line. -/
def step (cosD sinD : ℚ → ℚ) (s : Settings) (d : Derived) (st : State)
    (l : GLine) : State × List OutLine × List (ℚ × ℚ × ℚ) :=
  let st1 := track st l
  let st2 := (detect d st1 l).1
  let isExplicit := (detect d st1 l).2
  if isTrigger st2 l isExplicit && should_insert_snapshot s d st2 then
    ({ st2 with snapshots_taken_count := st2.snapshots_taken_count + 1 },
     (block cosD sinD s d st2).1 ++ [.src l], [(block cosD sinD s d st2).2])
  else (st2, [.src l], [])

/-- The whole pass from a given state, accumulating output lines and snapshot
points in order. -/
def loop (cosD sinD : ℚ → ℚ) (s : Settings) (d : Derived) (st : State) :
    List GLine → List OutLine × List (ℚ × ℚ × ℚ)
  | [] => ([], [])
  | l :: ls =>
    ((step cosD sinD s d st l).2.1
       ++ (loop cosD sinD s d (step cosD sinD s d st l).1 ls).1,
     (step cosD sinD s d st l).2.2
       ++ (loop cosD sinD s d (step cosD sinD s d st l).1 ls).2)

/-- orbit.py's `run(settings, gcode_lines)`: resolves metadata, derives the
schedule, emits the preamble (which can raise `TypeError`, aborting the whole
call) and then streams the lines.  On success returns
`(new_gcode, snapshot_points_list)`. -/
def run (cosD sinD : ℚ → ℚ) (s : Settings) (lines : List GLine) :
    Except PyErr (List OutLine × List (ℚ × ℚ × ℚ)) :=
  let m := resolveMeta s lines
  let d := derive s m
  match headerLines m with
  | .error e => .error e
  | .ok hdr =>
    .ok (hdr ++ (loop cosD sinD s d {} lines).1, (loop cosD sinD s d {} lines).2)

/-- The loop state after consuming a list of lines (same `step` as `run`). -/
def stateAfter (cosD sinD : ℚ → ℚ) (s : Settings) (lines : List GLine) : State :=
  lines.foldl (fun st l => (step cosD sinD s (derive s (resolveMeta s lines)) st l).1) {}

end Orbit

namespace MainApp

/-- The per-pass state of `GCodeParseThread._parse_gcode_toolpath`
(main.py lines 364–370), together with the two point lists it accumulates. -/
structure State where
  current_x : ℚ := 0
  current_y : ℚ := 0
  current_z : ℚ := 0
  is_relative : Bool := false
  current_layer : ℤ := -1
  layer_change_detected : Bool := false
  toolpath_points : List (ℚ × ℚ × ℚ) := []
  layer_start_points : List (ℚ × ℚ × ℚ) := []
deriving DecidableEq

/-- The layer-comment update of main.py lines 390–397 (shared by a pure
`;LAYER:n` line and a motion line with a trailing tag, since the `re.search`
runs on every line and then `continue`s). -/
def layerUpd (st : State) (n : ℕ) : State :=
  if (st.current_layer : ℤ) < (n : ℤ) then
    { st with current_layer := (n : ℤ), layer_change_detected := true }
  else st

/-- One iteration of `_parse_gcode_toolpath` (main.py lines 377–429).
G90/G91 and `;LAYER:`-tagged lines `continue` before the move parse, so a
motion line carrying a layer tag updates no axis. -/
def step (st : State) (l : GLine) : State :=
  match l with
  | .g90 => { st with is_relative := false }
  | .g91 => { st with is_relative := true }
  | .layerC n => layerUpd st n
  | .move _ _ _ _ _ (some n) => layerUpd st n
  | .move _ x y z e none =>
    let prev_z := st.current_z
    let nx := applyAxis st.is_relative st.current_x x
    let ny := applyAxis st.is_relative st.current_y y
    let nz := applyAxis st.is_relative st.current_z z
    let pt : ℚ × ℚ × ℚ := (nx, ny, nz)
    if st.toolpath_points.getLast? ≠ some pt then
      let st2 := { st with
        current_x := nx, current_y := ny, current_z := nz
        toolpath_points := st.toolpath_points ++ [pt] }
      if st.layer_change_detected && (e.isSome || decide (prev_z + 1/20 < nz)) then
        { st2 with
            layer_start_points := st2.layer_start_points ++ [pt]
            layer_change_detected := false }
      else st2
    else { st with current_x := nx, current_y := ny, current_z := nz }
  | _ => st

/-- main.py's `_parse_gcode_toolpath(lines)`: returns
`(toolpath_points, layer_start_points)`. -/
def parse_gcode_toolpath (lines : List GLine) :
    List (ℚ × ℚ × ℚ) × List (ℚ × ℚ × ℚ) :=
  let st := lines.foldl step {}
  (st.toolpath_points, st.layer_start_points)

/-- The tracker state after consuming a list of lines. -/
def stateAfter (lines : List GLine) : State :=
  lines.foldl step {}

end MainApp

/-- Recognises an injected return-travel line. -/
def isReturnTo : OutLine → Bool
  | .returnTo _ _ _ _ => true
  | _ => false

/-- Recognises an injected outbound travel line (the move to the snapshot
position). -/
def isMoveTo : OutLine → Bool
  | .moveTo _ _ _ _ => true
  | _ => false

/-- The target coordinates of an injected outbound travel line. -/
def moveToTarget : OutLine → Option (ℚ × ℚ × ℚ)
  | .moveTo x y z _ => some (x, y, z)
  | _ => none

/-- The layer index named by an arc snapshot block header. -/
def arcHeaderLayer : OutLine → Option ℕ
  | .arcHeader _ _ n => some n
  | _ => none

/-- The layer index named by an orbit snapshot block header. -/
def orbitHeaderLayer : OutLine → Option ℕ
  | .orbitHeader n => some n
  | _ => none

/-- Recognises the header comment opening an injected snapshot block of
either generator. -/
def isBlockHeader : OutLine → Bool
  | .arcHeader _ _ _ => true
  | .orbitHeader _ => true
  | _ => false

/-- Recognises an injected extrusion move (retraction or unretraction). -/
def isExtrude : OutLine → Bool
  | .extrude _ _ => true
  | _ => false

/-- Recognises a retraction proper: an injected extrusion move with negative
extrusion amount. -/
def isRetraction : OutLine → Bool
  | .extrude e _ => decide (e < 0)
  | _ => false

/-- Scheduler modelled from the spec sentence for C3 (for comparison with the
code): with known total `T` and requested count `N > 1`, targets start at the
floor `F` and advance by `(T − F) / (N − 1)`; walking the layer events
forward, each event whose index has reached the current target is accepted,
up to `N` acceptances. -/
def specGreedyGo (interval : ℚ) (N : ℕ) : ℚ → ℕ → List ℕ → List ℕ
  | _, _, [] => []
  | tgt, cnt, e :: es =>
    if cnt < N ∧ tgt ≤ (e : ℚ) then
      e :: specGreedyGo interval N (tgt + interval) (cnt + 1) es
    else specGreedyGo interval N tgt cnt es

/-- The layer indices the spec's greedy even-spacing scheduler accepts. -/
def specGreedySchedule (T F N : ℕ) (events : List ℕ) : List ℕ :=
  specGreedyGo (((T : ℚ) - (F : ℚ)) / (((N - 1 : ℕ) : ℚ))) N (F : ℚ) 0 events

/-- A concrete orbit configuration with fully resolved metadata (2 layers,
bed-area bbox), one orbit of two snapshots. -/
def w1cfg : Orbit.Settings :=
  { total_layers := some 2, min_x := some 0, max_x := some 100,
    min_y := some 0, max_y := some 100, max_z := some 10 }

/-- A one-line input: a single explicit layer marker. -/
def w1lines : List GLine := [.layerC 1]

/-- The successful result of the orbit run on `w1cfg`/`w1lines`. -/
def w1res : List OutLine × List (ℚ × ℚ × ℚ) :=
  ((Orbit.run (fun _ => 1) (fun _ => 0) w1cfg w1lines).toOption).getD ([], [])

/-- Arc configuration for the C2 counterexample: snapshots start at layer 2,
everything else at its default. -/
def c2cfg : Arc.Settings := { first_snapshot_layer := 2 }

/-- C2 counterexample input: a motion line to (10, 10), then an explicit
`;LAYER:2` marker that triggers a snapshot. -/
def c2lines : List GLine :=
  [.move true (some 10) (some 10) none none none, .layerC 2]

/-- Orbit configuration for the C3 counterexample: known total 9 layers,
floor 1, one orbit of two snapshots (N = 2). -/
def c3cfg : Orbit.Settings :=
  { num_orbits := 1, snapshots_per_loop := 2, first_snapshot_layer := 1,
    total_layers := some 9, min_x := some 0, max_x := some 100,
    min_y := some 0, max_y := some 100, max_z := some 9 }

/-- C3 counterexample input: explicit markers for layers 1 through 9. -/
def c3lines : List GLine :=
  [.layerC 1, .layerC 2, .layerC 3, .layerC 4, .layerC 5,
   .layerC 6, .layerC 7, .layerC 8, .layerC 9]

/-- The successful result of the orbit run on `c3cfg`/`c3lines`. -/
def c3res : List OutLine × List (ℚ × ℚ × ℚ) :=
  ((Orbit.run (fun _ => 1) (fun _ => 0) c3cfg c3lines).toOption).getD ([], [])

/-- Arc configuration for the C4 scenario: N = 2 snapshots, floor F = 0, a
100×50 bounding box of height 10, no z-hop or extra offsets. -/
def c4cfg : Arc.Settings :=
  { num_snapshots := 2, first_snapshot_layer := 0, min_x := 0, max_x := 100,
    min_y := 0, max_y := 50, min_z_print := 0, max_z := 10,
    z_hop_height := 0 }

/-- The C4 scenario input: explicit markers `;LAYER:0`, `;LAYER:1`,
`;LAYER:2` only. -/
def c4lines : List GLine := [.layerC 0, .layerC 1, .layerC 2]

/-- Orbit configuration analogous to the C4 scenario: one orbit of two
snapshots (N = 2), floor F = 0, resolved bbox, no total-layer count in the
input. -/
def c4cfgO : Orbit.Settings :=
  { num_orbits := 1, snapshots_per_loop := 2, first_snapshot_layer := 0,
    min_x := some 0, max_x := some 100, min_y := some 0, max_y := some 50,
    max_z := some 10 }

/-- The successful result of the orbit run on `c4cfgO`/`c4lines`. -/
def c4resO : List OutLine × List (ℚ × ℚ × ℚ) :=
  ((Orbit.run (fun _ => 1) (fun _ => 0) c4cfgO c4lines).toOption).getD ([], [])

/-- Orbit configuration for the C5 counterexample: total 2 layers, floor 1,
one orbit of two snapshots, so the derived interval is 1. -/
def c5cfg : Orbit.Settings :=
  { num_orbits := 1, snapshots_per_loop := 2, first_snapshot_layer := 1,
    total_layers := some 2, min_x := some 0, max_x := some 100,
    min_y := some 0, max_y := some 100, max_z := some 2 }

/-- C5 counterexample input: an explicit `;LAYER:1` marker followed by a
`;Z:0.2` comment, both of which trigger snapshot evaluation at layer 1. -/
def c5lines : List GLine := [.layerC 1, .zC (1/5)]

/-- The successful result of the orbit run on `c5cfg`/`c5lines`. -/
def c5res : List OutLine × List (ℚ × ℚ × ℚ) :=
  ((Orbit.run (fun _ => 1) (fun _ => 0) c5cfg c5lines).toOption).getD ([], [])

/-- C6 counterexample input: absolute move to X10, switch to relative mode,
then a move of X5. -/
def c6lines : List GLine :=
  [.move true (some 10) none none none none, .g91,
   .move true (some 5) none none none none]

/-- C7 counterexample input: a single explicit layer marker firing one
snapshot under the default arc settings (whose retract length is 0.5 > 0). -/
def c7lines : List GLine := [.layerC 1]

/-- C8 failing input: a Z move to 1.0 (fallback fires, baseline 1.0), a
combined motion line `G1 Z1.2 ;LAYER:2` whose marker fires layer 2 without
resetting the baseline, then a plain `G1 X5` on which the stale baseline
fires a third, double-counted layer event. -/
def c8lines : List GLine :=
  [.move true none none (some 1) none none,
   .move true none none (some (6/5)) none (some 2),
   .move true (some 5) none none none none]

/-- C9 failing input: a plain motion line, containing no metadata comments at
all, fed to an orbit configuration whose settings carry no metadata either. -/
def c9lines : List GLine := [.move true (some 5) none none none none]

/-- Orbit configuration for C10's witness (same shape as `w1cfg` but with a
dwell of zero to exercise the other emission branch). -/
def w10cfg : Orbit.Settings :=
  { dwell_time := 0, total_layers := some 2, min_x := some 0,
    max_x := some 100, min_y := some 0, max_y := some 100, max_z := some 10 }

/-- The successful result of the orbit run on `w10cfg`/`w1lines`. -/
def w10res : List OutLine × List (ℚ × ℚ × ℚ) :=
  ((Orbit.run (fun _ => 1) (fun _ => 0) w10cfg w1lines).toOption).getD ([], [])

/-- An arc snapshot block, whatever the configuration, contains exactly one
outbound travel (whose target is the recorded point), one header naming the
current logical layer, one return travel targeting the saved `original_pos`,
exactly the unretraction extrusion when `retract_length > 0` (and no
retraction before the outbound travel). -/
theorem arc_block_eval (s : Arc.Settings) (st : Arc.State) :
    (Arc.block s st).1.filterMap moveToTarget = [(Arc.block s st).2] ∧
    (Arc.block s st).1.countP isMoveTo = 1 ∧
    (Arc.block s st).1.countP isBlockHeader = 1 ∧
    (Arc.block s st).1.filterMap arcHeaderLayer = [st.current_logical_layer] ∧
    (Arc.block s st).1.filter isReturnTo =
      [.returnTo st.original_pos_x st.original_pos_y st.original_pos_z s.travel_speed] ∧
    (Arc.block s st).1.filter isExtrude =
      (if s.retract_length > 0 then
        [.extrude s.retract_length (s.retract_speed * 60)] else []) ∧
    ((Arc.block s st).1.takeWhile (fun o => !isMoveTo o)).filter isExtrude = [] := by
  by_cases hd : s.dwell_time > 0 <;> by_cases hr : s.retract_length > 0 <;>
    simp [Arc.block, hd, hr, moveToTarget, isMoveTo, isBlockHeader, arcHeaderLayer,
      isReturnTo, isExtrude]

/-- An orbit snapshot block, whatever the configuration, contains exactly one
outbound travel (whose target is the recorded point), one header naming the
current layer, one return travel targeting the tracked position held at
injection, and exactly the retraction/unretraction pair when
`retract_length > 0`, the retraction sitting before the outbound travel. -/
theorem orbit_block_eval (cosD sinD : ℚ → ℚ) (s : Orbit.Settings)
    (d : Orbit.Derived) (st : Orbit.State) :
    (Orbit.block cosD sinD s d st).1.filterMap moveToTarget =
      [(Orbit.block cosD sinD s d st).2] ∧
    (Orbit.block cosD sinD s d st).1.countP isMoveTo = 1 ∧
    (Orbit.block cosD sinD s d st).1.countP isBlockHeader = 1 ∧
    (Orbit.block cosD sinD s d st).1.filterMap orbitHeaderLayer = [st.layer_count] ∧
    (Orbit.block cosD sinD s d st).1.filter isReturnTo =
      [.returnTo st.current_x st.current_y st.current_z s.travel_speed] ∧
    (Orbit.block cosD sinD s d st).1.filter isExtrude =
      (if s.retract_length > 0 then
        [.extrude (-s.retract_length) (s.retract_speed * 60),
         .extrude s.retract_length (s.retract_speed * 60)] else []) ∧
    ((Orbit.block cosD sinD s d st).1.takeWhile (fun o => !isMoveTo o)).filter isExtrude =
      (if s.retract_length > 0 then
        [.extrude (-s.retract_length) (s.retract_speed * 60)] else []) := by
  by_cases hd : s.dwell_time > 0 <;> by_cases hr : s.retract_length > 0 <;>
    simp [Orbit.block, hd, hr, moveToTarget, isMoveTo, isBlockHeader, orbitHeaderLayer,
      isReturnTo, isExtrude]

/-- The lines one arc `step` emits always end with the re-emitted original
line, preceded by the injected block when one fires. -/
theorem arc_step_out (s : Arc.Settings) (st : Arc.State) (l : GLine) :
    ∃ pre, (Arc.step s st l).2.1 = pre ++ [OutLine.src l] := by
  simp only [Arc.step]
  split
  · exact ⟨_, rfl⟩
  · exact ⟨[], rfl⟩

/-- The lines one orbit `step` emits always end with the re-emitted original
line, preceded by the injected block when one fires. -/
theorem orbit_step_out (cosD sinD : ℚ → ℚ) (s : Orbit.Settings) (d : Orbit.Derived)
    (st : Orbit.State) (l : GLine) :
    ∃ pre, (Orbit.step cosD sinD s d st l).2.1 = pre ++ [OutLine.src l] := by
  simp only [Orbit.step]
  split
  · exact ⟨_, rfl⟩
  · exact ⟨[], rfl⟩

/-- Over any suffix of the pass, the original lines form a sublist of the arc
loop's output. -/
theorem arc_loop_src_sublist (s : Arc.Settings) :
    ∀ (lines : List GLine) (st : Arc.State),
      (lines.map OutLine.src).Sublist (Arc.loop s st lines).1 := by
  intro lines
  induction lines with
  | nil => intro st; simp [Arc.loop]
  | cons l ls ih =>
    intro st
    obtain ⟨pre, hpre⟩ := arc_step_out s st l
    have h2 := ih (Arc.step s st l).1
    simp only [Arc.loop, hpre, List.map_cons, List.append_assoc, List.singleton_append]
    exact List.sublist_append_of_sublist_right (List.Sublist.cons₂ _ h2)

/-- Over any suffix of the pass, the original lines form a sublist of the
orbit loop's output. -/
theorem orbit_loop_src_sublist (cosD sinD : ℚ → ℚ) (s : Orbit.Settings)
    (d : Orbit.Derived) :
    ∀ (lines : List GLine) (st : Orbit.State),
      (lines.map OutLine.src).Sublist (Orbit.loop cosD sinD s d st lines).1 := by
  intro lines
  induction lines with
  | nil => intro st; simp [Orbit.loop]
  | cons l ls ih =>
    intro st
    obtain ⟨pre, hpre⟩ := orbit_step_out cosD sinD s d st l
    have h2 := ih (Orbit.step cosD sinD s d st l).1
    simp only [Orbit.loop, hpre, List.map_cons, List.append_assoc, List.singleton_append]
    exact List.sublist_append_of_sublist_right (List.Sublist.cons₂ _ h2)

/-- Inverting a successful orbit run into its preamble and loop parts. -/
theorem Orbit.run_ok {cosD sinD : ℚ → ℚ} {s : Orbit.Settings} {lines : List GLine}
    {res : List OutLine × List (ℚ × ℚ × ℚ)}
    (h : Orbit.run cosD sinD s lines = Except.ok res) :
    ∃ hdr, Orbit.headerLines (Orbit.resolveMeta s lines) = Except.ok hdr ∧
      res.1 = hdr ++ (Orbit.loop cosD sinD s
        (Orbit.derive s (Orbit.resolveMeta s lines)) {} lines).1 ∧
      res.2 = (Orbit.loop cosD sinD s
        (Orbit.derive s (Orbit.resolveMeta s lines)) {} lines).2 := by
  simp only [Orbit.run] at h
  cases hh : Orbit.headerLines (Orbit.resolveMeta s lines) with
  | error e => rw [hh] at h; cases h
  | ok hdr =>
    rw [hh] at h
    injection h with h2
    subst h2
    exact ⟨hdr, rfl, rfl, rfl⟩

/-- The orbit preamble contains no outbound travel and no snapshot block
header. -/
theorem Orbit.header_clean {m : Orbit.Meta} {hdr : List OutLine}
    (h : Orbit.headerLines m = Except.ok hdr) :
    hdr.filterMap moveToTarget = [] ∧ hdr.countP isMoveTo = 0 ∧
    hdr.countP isBlockHeader = 0 := by
  unfold Orbit.headerLines at h
  split at h
  · cases h
    by_cases ht : m.total_layers.isSome <;>
      simp [ht, moveToTarget, isMoveTo, isBlockHeader]
  · cases h

/-- The recorded points of one arc step are exactly the targets of its
emitted outbound travels, and blocks and outbound travels are in bijection. -/
theorem arc_step_points (s : Arc.Settings) (st : Arc.State) (l : GLine) :
    (Arc.step s st l).2.2 = (Arc.step s st l).2.1.filterMap moveToTarget ∧
    (Arc.step s st l).2.1.countP isMoveTo = (Arc.step s st l).2.1.countP isBlockHeader := by
  obtain ⟨h1, h2, h3, -⟩ := arc_block_eval s (Arc.detect (Arc.track st l) l).1
  simp only [Arc.step]
  split
  · simp [List.filterMap_append, List.countP_append, h1, h2, h3, moveToTarget,
      isMoveTo, isBlockHeader]
  · simp [moveToTarget, isMoveTo, isBlockHeader]

/-- The recorded points of one orbit step are exactly the targets of its
emitted outbound travels, and blocks and outbound travels are in bijection. -/
theorem orbit_step_points (cosD sinD : ℚ → ℚ) (s : Orbit.Settings)
    (d : Orbit.Derived) (st : Orbit.State) (l : GLine) :
    (Orbit.step cosD sinD s d st l).2.2 =
      (Orbit.step cosD sinD s d st l).2.1.filterMap moveToTarget ∧
    (Orbit.step cosD sinD s d st l).2.1.countP isMoveTo =
      (Orbit.step cosD sinD s d st l).2.1.countP isBlockHeader := by
  obtain ⟨h1, h2, h3, -⟩ :=
    orbit_block_eval cosD sinD s d (Orbit.detect d (Orbit.track st l) l).1
  simp only [Orbit.step]
  split
  · simp [List.filterMap_append, List.countP_append, h1, h2, h3, moveToTarget,
      isMoveTo, isBlockHeader]
  · simp [moveToTarget, isMoveTo, isBlockHeader]

/-- Over any suffix of the pass, the arc loop's recorded points are exactly
the targets of its emitted outbound travels, one per injected block. -/
theorem arc_loop_points (s : Arc.Settings) :
    ∀ (lines : List GLine) (st : Arc.State),
      (Arc.loop s st lines).2 = (Arc.loop s st lines).1.filterMap moveToTarget ∧
      (Arc.loop s st lines).1.countP isMoveTo =
        (Arc.loop s st lines).1.countP isBlockHeader := by
  intro lines
  induction lines with
  | nil => intro st; simp [Arc.loop]
  | cons l ls ih =>
    intro st
    obtain ⟨ih1, ih2⟩ := ih (Arc.step s st l).1
    obtain ⟨h1, h2⟩ := arc_step_points s st l
    simp only [Arc.loop, List.filterMap_append, List.countP_append]
    exact ⟨by rw [ih1, h1], by rw [ih2, h2]⟩

/-- Over any suffix of the pass, the orbit loop's recorded points are exactly
the targets of its emitted outbound travels, one per injected block. -/
theorem orbit_loop_points (cosD sinD : ℚ → ℚ) (s : Orbit.Settings) (d : Orbit.Derived) :
    ∀ (lines : List GLine) (st : Orbit.State),
      (Orbit.loop cosD sinD s d st lines).2 =
        (Orbit.loop cosD sinD s d st lines).1.filterMap moveToTarget ∧
      (Orbit.loop cosD sinD s d st lines).1.countP isMoveTo =
        (Orbit.loop cosD sinD s d st lines).1.countP isBlockHeader := by
  intro lines
  induction lines with
  | nil => intro st; simp [Orbit.loop]
  | cons l ls ih =>
    intro st
    obtain ⟨ih1, ih2⟩ := ih (Orbit.step cosD sinD s d st l).1
    obtain ⟨h1, h2⟩ := orbit_step_points cosD sinD s d st l
    simp only [Orbit.loop, List.filterMap_append, List.countP_append]
    exact ⟨by rw [ih1, h1], by rw [ih2, h2]⟩

/-- Position tracking does not change the set of layers that already received
a snapshot. -/
theorem Arc.track_layers (st : Arc.State) (l : GLine) :
    (Arc.track st l).layers_with_inserted_snapshots =
      st.layers_with_inserted_snapshots := by
  cases l <;> simp [Arc.track]

/-- Layer detection does not change the set of layers that already received a
snapshot. -/
theorem Arc.detect_layers (st : Arc.State) (l : GLine) :
    (Arc.detect st l).1.layers_with_inserted_snapshots =
      st.layers_with_inserted_snapshots := by
  unfold Arc.detect
  rcases hl : Arc.layerTag l with _ | n <;> dsimp only <;> split_ifs <;> rfl

/-- When the insertion condition holds, the current logical layer has not
received a snapshot yet. -/
theorem Arc.insertCond_not_mem {s : Arc.Settings} {st : Arc.State} {isNew : Bool}
    (h : Arc.insertCond s st isNew = true) :
    st.current_logical_layer ∉ st.layers_with_inserted_snapshots := by
  simp only [Arc.insertCond, Bool.and_eq_true, Bool.not_eq_true',
    decide_eq_false_iff_not] at h
  exact h.1.2

/-- Over any suffix of the pass, the layer indices named by the arc loop's
emitted block headers are pairwise distinct and all absent from the
already-snapshotted set of the starting state. -/
theorem Arc.loop_headers_nodup_aux (s : Arc.Settings) :
    ∀ (lines : List GLine) (st : Arc.State),
      ((Arc.loop s st lines).1.filterMap arcHeaderLayer).Nodup ∧
      ∀ n ∈ (Arc.loop s st lines).1.filterMap arcHeaderLayer,
        n ∉ st.layers_with_inserted_snapshots := by
  intro lines
  induction lines with
  | nil => intro st; simp [Arc.loop]
  | cons l ls ih =>
    intro st
    obtain ⟨ihn, ihm⟩ := ih (Arc.step s st l).1
    have hb := (arc_block_eval s (Arc.detect (Arc.track st l) l).1).2.2.2.1
    by_cases hc : Arc.insertCond s (Arc.detect (Arc.track st l) l).1
        (Arc.detect (Arc.track st l) l).2 = true
    · have hout : (Arc.step s st l).2.1.filterMap arcHeaderLayer =
          [(Arc.detect (Arc.track st l) l).1.current_logical_layer] := by
        simp [Arc.step, hc, hb, arcHeaderLayer]
      have hstate : (Arc.step s st l).1.layers_with_inserted_snapshots =
          (Arc.detect (Arc.track st l) l).1.current_logical_layer ::
            (Arc.detect (Arc.track st l) l).1.layers_with_inserted_snapshots := by
        simp [Arc.step, hc]
      have hold : (Arc.detect (Arc.track st l) l).1.layers_with_inserted_snapshots =
          st.layers_with_inserted_snapshots := by
        rw [Arc.detect_layers, Arc.track_layers]
      constructor
      · simp only [Arc.loop, List.filterMap_append, hout, List.singleton_append,
          List.nodup_cons]
        refine ⟨fun hmem => ?_, ihn⟩
        have := ihm _ hmem
        rw [hstate] at this
        exact this (List.mem_cons_self _ _)
      · intro n hn
        simp only [Arc.loop, List.filterMap_append, hout, List.singleton_append,
          List.mem_cons] at hn
        rcases hn with rfl | hn
        · have := Arc.insertCond_not_mem hc
          rwa [hold] at this
        · have := ihm _ hn
          rw [hstate, hold] at this
          exact fun hmem => this (List.mem_cons_of_mem _ hmem)
    · have hout : (Arc.step s st l).2.1.filterMap arcHeaderLayer = [] := by
        simp [Arc.step, hc, arcHeaderLayer]
      have hstate : (Arc.step s st l).1.layers_with_inserted_snapshots =
          st.layers_with_inserted_snapshots := by
        simp only [Arc.step]
        rw [if_neg (by simp [hc])]
        rw [Arc.detect_layers, Arc.track_layers]
      constructor
      · simpa only [Arc.loop, List.filterMap_append, hout, List.nil_append] using ihn
      · intro n hn
        simp only [Arc.loop, List.filterMap_append, hout, List.nil_append] at hn
        have := ihm _ hn
        rwa [hstate] at this

/-- C1: for every input line sequence and configuration, both generators'
`run` preserves every original line verbatim in its original relative order
(the originals form a sublist of the output), so the output line count is at
least the input line count.  For arc this is unconditional; for orbit it
holds for every run that returns (the only non-returning case is the C9
metadata crash). -/
theorem claim1_no_line_dropped_or_reordered :
    (∀ (s : Arc.Settings) (lines : List GLine),
        (lines.map OutLine.src).Sublist (Arc.run s lines).1 ∧
        lines.length ≤ (Arc.run s lines).1.length) ∧
    (∀ (cosD sinD : ℚ → ℚ) (s : Orbit.Settings) (lines : List GLine)
        (res : List OutLine × List (ℚ × ℚ × ℚ)),
        Orbit.run cosD sinD s lines = Except.ok res →
        (lines.map OutLine.src).Sublist res.1 ∧ lines.length ≤ res.1.length) := by
  constructor
  · intro s lines
    have h := arc_loop_src_sublist s lines {}
    refine ⟨h, ?_⟩
    have := h.length_le
    simpa using this
  · intro cosD sinD s lines res h
    obtain ⟨hdr, -, h1, -⟩ := Orbit.run_ok h
    have h2 := orbit_loop_src_sublist cosD sinD s
      (Orbit.derive s (Orbit.resolveMeta s lines)) lines {}
    have h3 : (lines.map OutLine.src).Sublist res.1 := by
      rw [h1]; exact List.sublist_append_of_sublist_right h2
    refine ⟨h3, ?_⟩
    have := h3.length_le
    simpa using this

/-- Witness for C1: a concrete successful orbit run on a one-line input. -/
theorem claim1_witness :
    Orbit.run (fun _ => 1) (fun _ => 0) w1cfg w1lines = Except.ok w1res ∧
    (w1lines.map OutLine.src).Sublist w1res.1 ∧
    w1lines.length ≤ w1res.1.length := by
  have h : Orbit.run (fun _ => 1) (fun _ => 0) w1cfg w1lines = Except.ok w1res := by
    norm_num [w1res, w1cfg, w1lines, Orbit.run, Orbit.resolveMeta, Orbit.parse_gcode_info,
      Orbit.parseLoop, Orbit.infoStep, Orbit.derive, Orbit.headerLines, Orbit.loop,
      Orbit.step, Orbit.track, Orbit.detect, Orbit.isTrigger, Orbit.should_insert_snapshot,
      Orbit.block, pyRound, Except.toOption]
  exact ⟨h, (claim1_no_line_dropped_or_reordered.2 _ _ _ _ _ h).1,
    (claim1_no_line_dropped_or_reordered.2 _ _ _ _ _ h).2⟩

/-- C2 counterexample: in arc.py, when a snapshot is triggered by a comment
line (`;LAYER:2`) after an intervening motion line, the block's return travel
targets the position saved before that motion line, not the position the
tracker holds at injection: here the tracker is at (10, 10, 0) when the block
is injected, yet the return travel targets (0, 0, 0). -/
theorem claim2_counterexample :
    (Arc.run c2cfg c2lines).1.filter isReturnTo = [.returnTo 0 0 0 9000] ∧
    (Arc.stateAfter c2cfg c2lines).current_x = 10 ∧
    (Arc.stateAfter c2cfg c2lines).current_y = 10 ∧
    (Arc.stateAfter c2cfg c2lines).current_z = 0 ∧
    ¬ ((0 : ℚ), (0 : ℚ), (0 : ℚ)) = ((10 : ℚ), (10 : ℚ), (0 : ℚ)) := by
  refine ⟨?_, ?_, ?_, ?_, by norm_num [Prod.ext_iff]⟩
  case refine_1 =>
    norm_num [Arc.run, Arc.loop, Arc.step, Arc.track, Arc.detect,
      Arc.insertCond, Arc.block, Arc.waypoint, Arc.phaseBounds, Arc.p0, Arc.p2,
      Arc.cornerXY, Arc.global_progress_divisor, Arc.z_range_total, Arc.bez,
      applyAxis, Arc.layerTag, c2cfg, c2lines, isReturnTo, List.filter]
  all_goals
    norm_num [Arc.stateAfter, Arc.step, Arc.track, Arc.detect, Arc.insertCond,
      Arc.block, Arc.waypoint, Arc.phaseBounds, Arc.p0, Arc.p2, Arc.cornerXY,
      Arc.global_progress_divisor, Arc.z_range_total, Arc.bez, applyAxis,
      Arc.layerTag, c2cfg, c2lines, List.foldl]

/-- C2 amended: the orbit block's return travel targets exactly the tracked
position captured at injection; the arc block's return travel targets the
`original_pos` captured when the tracker consumed the most recent motion
line, namely the position held immediately before that motion line — which
equals the physical pre-block position only when the snapshot is triggered by
that motion line itself. -/
theorem claim2_amended_return_targets :
    (∀ (cosD sinD : ℚ → ℚ) (s : Orbit.Settings) (d : Orbit.Derived)
        (st : Orbit.State),
        (Orbit.block cosD sinD s d st).1.filter isReturnTo =
          [.returnTo st.current_x st.current_y st.current_z s.travel_speed]) ∧
    (∀ (s : Arc.Settings) (st : Arc.State),
        (Arc.block s st).1.filter isReturnTo =
          [.returnTo st.original_pos_x st.original_pos_y st.original_pos_z
            s.travel_speed]) ∧
    (∀ (st : Arc.State) (g : Bool) (x y z e : Option ℚ) (t : Option ℕ),
        (Arc.track st (.move g x y z e t)).original_pos_x = st.current_x ∧
        (Arc.track st (.move g x y z e t)).original_pos_y = st.current_y ∧
        (Arc.track st (.move g x y z e t)).original_pos_z = st.current_z) := by
  refine ⟨fun cosD sinD s d st => (orbit_block_eval cosD sinD s d st).2.2.2.2.1,
    fun s st => (arc_block_eval s st).2.2.2.2.1,
    fun st g x y z e t => ?_⟩
  simp [Arc.track]

/-- C3 counterexample: with known total T = 9, floor F = 1 and requested
count N = 2, the spec's greedy `(T−F)/(N−1)` walk over the layer events
1…9 accepts layers 1 and 9, but the orbit scheduler (interval
`max(1, round((T−F+1)/N)) = 4`, modulo test) accepts layers 1 and 5. -/
theorem claim3_counterexample :
    c3res.1.filterMap orbitHeaderLayer = [1, 5] ∧
    specGreedySchedule 9 1 2 [1, 2, 3, 4, 5, 6, 7, 8, 9] = [1, 9] ∧
    ¬ ([1, 5] : List ℕ) = [1, 9] := by
  refine ⟨?_, ?_, by norm_num⟩
  · norm_num [c3res, c3cfg, c3lines, Orbit.run, Orbit.resolveMeta,
      Orbit.parse_gcode_info, Orbit.parseLoop, Orbit.infoStep, Orbit.derive,
      Orbit.headerLines, Orbit.loop, Orbit.step, Orbit.track, Orbit.detect,
      Orbit.isTrigger, Orbit.should_insert_snapshot, Orbit.block, pyRound,
      Except.toOption, orbitHeaderLayer, List.filterMap]
  · norm_num [specGreedySchedule, specGreedyGo]

/-- C3 amended: neither scheduler walks `(T−F)/(N−1)` targets.  The arc
scheduler accepts every new logical layer ≥ F not yet snapshotted while fewer
than N snapshots are taken (the total layer count is never consulted); the
orbit scheduler accepts a triggering layer event at layer L iff L ≥ F, the
derived interval I is positive, `(L − F) mod I = 0` and fewer than the
expected total have been taken, where I is `max(1, round((max(1, T−F+1))/E))`
for known T > 0 and expected count E > 0, the fixed fallback 50 when T is
unknown or T = 0, and −1 when E = 0. -/
theorem claim3_amended_schedulers :
    (∀ (s : Arc.Settings) (st : Arc.State) (isNew : Bool),
        Arc.insertCond s st isNew = true ↔
          isNew = true ∧ s.first_snapshot_layer ≤ st.current_logical_layer ∧
          st.current_logical_layer ∉ st.layers_with_inserted_snapshots ∧
          st.snapshots_taken_count < s.num_snapshots) ∧
    (∀ (s : Orbit.Settings) (d : Orbit.Derived) (st : Orbit.State),
        Orbit.should_insert_snapshot s d st = true ↔
          s.first_snapshot_layer ≤ st.layer_count ∧
          0 < d.layer_interval_per_snapshot ∧
          ((st.layer_count : ℤ) - (s.first_snapshot_layer : ℤ))
            % d.layer_interval_per_snapshot = 0 ∧
          0 < d.total_expected_snapshots ∧
          st.snapshots_taken_count < d.total_expected_snapshots) ∧
    (∀ (s : Orbit.Settings) (m : Orbit.Meta),
        (Orbit.derive s m).layer_interval_per_snapshot =
          if s.num_orbits * s.snapshots_per_loop = 0 then -1
          else
            match m.total_layers with
            | some t =>
              if 0 < t then
                max 1 (pyRound
                  ((((max 1 ((t : ℤ) - (s.first_snapshot_layer : ℤ) + 1) : ℤ)) : ℚ)
                    / ((s.num_orbits * s.snapshots_per_loop : ℕ) : ℚ)))
              else 50
            | none => 50) := by
  refine ⟨fun s st isNew => ?_, fun s d st => ?_, fun s m => ?_⟩
  · simp only [Arc.insertCond, Bool.and_eq_true, Bool.not_eq_true',
      decide_eq_true_eq, decide_eq_false_iff_not]
    tauto
  · simp only [Orbit.should_insert_snapshot, Bool.and_eq_true, decide_eq_true_eq]
    tauto
  · simp only [Orbit.derive]
    by_cases ht : s.num_orbits * s.snapshots_per_loop = 0
    · simp [ht]
    · cases m.total_layers with
      | none => simp [ht]
      | some t =>
        by_cases htt : 0 < t
        · simp [ht, htt, Nat.pos_of_ne_zero ht]
        · simp [ht, htt]

/-- C4 counterexample: on the 3-layer file `;LAYER:0`, `;LAYER:1`,
`;LAYER:2` with N = 2 and F = 0, the arc generator emits its snapshots at
layers 1 and 2, not at layers 0 and 2: a `;LAYER:0` marker never fires
because the logical layer counter starts at 0 and markers fire only on a
strictly greater id. -/
theorem claim4_counterexample :
    (Arc.run c4cfg c4lines).1.filterMap arcHeaderLayer = [1, 2] ∧
    ¬ (Arc.run c4cfg c4lines).1.filterMap arcHeaderLayer = [0, 2] := by
  have h : (Arc.run c4cfg c4lines).1.filterMap arcHeaderLayer = [1, 2] := by
    norm_num [Arc.run, Arc.loop, Arc.step, Arc.track, Arc.detect, Arc.insertCond,
      Arc.block, Arc.waypoint, Arc.phaseBounds, Arc.p0, Arc.p2, Arc.cornerXY,
      Arc.global_progress_divisor, Arc.z_range_total, Arc.bez, applyAxis,
      Arc.layerTag, c4cfg, c4lines, arcHeaderLayer, List.filterMap]
  exact ⟨h, by rw [h]; norm_num⟩

/-- C4 amended: on that input the arc generator emits exactly two snapshots,
at layer 1 with progress fraction t = 0 (waypoint at the start corner and
minimum height) and at layer 2 with t = 1 (waypoint at the end corner and
maximum height); layer 0 receives none.  The orbit generator on the same
input (one orbit of two snapshots, F = 0) emits no snapshot at all, since
with no total-layer comment it falls back to the fixed 50-layer interval. -/
theorem claim4_amended_actual_schedule :
    (Arc.run c4cfg c4lines).1.filterMap arcHeaderLayer = [1, 2] ∧
    (Arc.run c4cfg c4lines).1.filterMap moveToTarget =
      [(0, 0, 0), (100, 50, 10)] ∧
    (Arc.run c4cfg c4lines).2 = [(0, 0, 0), (100, 50, 10)] ∧
    c4resO.1.filterMap orbitHeaderLayer = [] := by
  refine ⟨?_, ?_, ?_, ?_⟩
  case refine_4 =>
    norm_num [c4resO, c4cfgO, c4lines, Orbit.run, Orbit.resolveMeta,
      Orbit.parse_gcode_info, Orbit.parseLoop, Orbit.infoStep, Orbit.derive,
      Orbit.headerLines, Orbit.loop, Orbit.step, Orbit.track, Orbit.detect,
      Orbit.isTrigger, Orbit.should_insert_snapshot, Orbit.block, pyRound,
      Except.toOption, orbitHeaderLayer, List.filterMap]
  all_goals
    norm_num [Arc.run, Arc.loop, Arc.step, Arc.track, Arc.detect, Arc.insertCond,
      Arc.block, Arc.waypoint, Arc.phaseBounds, Arc.p0, Arc.p2, Arc.cornerXY,
      Arc.global_progress_divisor, Arc.z_range_total, Arc.bez, applyAxis,
      Arc.layerTag, c4cfg, c4lines, arcHeaderLayer, moveToTarget, List.filterMap]

/-- C5 counterexample: the orbit generator can emit two snapshot blocks for
the same layer index in one run.  With total 2 layers, floor 1 and two
expected snapshots (interval 1), the input `;LAYER:1` followed by `;Z:0.2`
triggers snapshot evaluation twice at layer 1 and both pass, so two blocks
are injected for layer 1. -/
theorem claim5_counterexample :
    c5res.1.filterMap orbitHeaderLayer = [1, 1] ∧
    ¬ (c5res.1.filterMap orbitHeaderLayer).Nodup := by
  have h : c5res.1.filterMap orbitHeaderLayer = [1, 1] := by
    norm_num [c5res, c5cfg, c5lines, Orbit.run, Orbit.resolveMeta,
      Orbit.parse_gcode_info, Orbit.parseLoop, Orbit.infoStep, Orbit.derive,
      Orbit.headerLines, Orbit.loop, Orbit.step, Orbit.track, Orbit.detect,
      Orbit.isTrigger, Orbit.should_insert_snapshot, Orbit.block, pyRound,
      Except.toOption, orbitHeaderLayer, List.filterMap]
  exact ⟨h, by rw [h]; simp⟩

/-- C5 amended: the arc generator never emits two snapshot blocks with the
same layer index in a single run (enforced by its inserted-layers set); the
orbit generator lacks this guard and can emit duplicates when several trigger
comments evaluate at the same layer. -/
theorem claim5_amended_arc_no_duplicate_layers (s : Arc.Settings)
    (lines : List GLine) :
    ((Arc.run s lines).1.filterMap arcHeaderLayer).Nodup :=
  (Arc.loop_headers_nodup_aux s lines {}).1

/-- C6 counterexample: orbit.py's tracker ignores the positioning mode.
After `G1 X10`, `G91`, `G1 X5` the relative-mode semantics of the claim (and
of arc.py's tracker, via `applyAxis`) yields X = 15, but orbit.py's tracker
holds X = 5. -/
theorem claim6_counterexample :
    (Arc.stateAfter {} c6lines).current_x = 15 ∧
    applyAxis true (10 : ℚ) (some 5) = 15 ∧
    (Orbit.stateAfter (fun _ => 1) (fun _ => 0) {} c6lines).current_x = 5 ∧
    ¬ (5 : ℚ) = 15 := by
  refine ⟨?_, by norm_num [applyAxis], ?_, by norm_num⟩
  · norm_num [Arc.stateAfter, Arc.step, Arc.track, Arc.detect, Arc.insertCond,
      Arc.block, Arc.waypoint, Arc.phaseBounds, Arc.p0, Arc.p2, Arc.cornerXY,
      Arc.global_progress_divisor, Arc.z_range_total, Arc.bez, applyAxis,
      Arc.layerTag, c6lines, List.foldl]
  · norm_num [Orbit.stateAfter, Orbit.resolveMeta, Orbit.parse_gcode_info,
      Orbit.parseLoop, Orbit.infoStep, Orbit.derive, Orbit.step, Orbit.track,
      Orbit.detect, Orbit.isTrigger, Orbit.should_insert_snapshot, Orbit.block,
      pyRound, c6lines, List.foldl]

/-- C6 amended: arc.py's tracker and main.py's toolpath tracker handle a
motion line exactly as the claim states — an absent axis is untouched, a
present axis is set outright in absolute mode and added to in relative mode
(`applyAxis`) — with main.py skipping the motion parse entirely on a line
carrying a `;LAYER:` tag; orbit.py's tracker instead assigns every parsed
coordinate outright, regardless of the positioning mode. -/
theorem claim6_amended_tracker_semantics :
    (∀ (st : Arc.State) (g : Bool) (x y z e : Option ℚ) (t : Option ℕ),
        (Arc.track st (.move g x y z e t)).current_x =
          applyAxis st.is_relative st.current_x x ∧
        (Arc.track st (.move g x y z e t)).current_y =
          applyAxis st.is_relative st.current_y y ∧
        (Arc.track st (.move g x y z e t)).current_z =
          applyAxis st.is_relative st.current_z z) ∧
    (∀ (isRel : Bool) (old : ℚ), applyAxis isRel old none = old) ∧
    (∀ (old v : ℚ), applyAxis false old (some v) = v) ∧
    (∀ (old v : ℚ), applyAxis true old (some v) = old + v) ∧
    (∀ (st : MainApp.State) (g : Bool) (x y z e : Option ℚ),
        (MainApp.step st (.move g x y z e none)).current_x =
          applyAxis st.is_relative st.current_x x ∧
        (MainApp.step st (.move g x y z e none)).current_y =
          applyAxis st.is_relative st.current_y y ∧
        (MainApp.step st (.move g x y z e none)).current_z =
          applyAxis st.is_relative st.current_z z) ∧
    (∀ (st : MainApp.State) (g : Bool) (x y z e : Option ℚ) (n : ℕ),
        (MainApp.step st (.move g x y z e (some n))).current_x = st.current_x ∧
        (MainApp.step st (.move g x y z e (some n))).current_y = st.current_y ∧
        (MainApp.step st (.move g x y z e (some n))).current_z = st.current_z) ∧
    (∀ (st : Orbit.State) (g : Bool) (x y z e : Option ℚ) (t : Option ℕ),
        (Orbit.track st (.move g x y z e t)).current_x = x.getD st.current_x ∧
        (Orbit.track st (.move g x y z e t)).current_y = y.getD st.current_y ∧
        (Orbit.track st (.move g x y z e t)).current_z = z.getD st.current_z) := by
  refine ⟨fun st g x y z e t => by simp [Arc.track],
    fun isRel old => rfl, fun old v => rfl, fun old v => rfl,
    fun st g x y z e => ?_,
    fun st g x y z e n => by simp [MainApp.step, MainApp.layerUpd]; split_ifs <;> simp,
    fun st g x y z e t => by simp [Orbit.track]⟩
  simp only [MainApp.step]
  split_ifs <;> simp

/-- C7 counterexample: with the default arc settings (retract length
0.5 > 0) a run that injects one snapshot block emits no retraction at all —
there is no negative-extrusion move anywhere in the output. -/
theorem claim7_counterexample :
    (0 : ℚ) < (({} : Arc.Settings)).retract_length ∧
    (Arc.run {} c7lines).1.countP isBlockHeader = 1 ∧
    (Arc.run {} c7lines).1.filter isRetraction = [] := by
  refine ⟨by norm_num, ?_, ?_⟩ <;>
    norm_num [Arc.run, Arc.loop, Arc.step, Arc.track, Arc.detect, Arc.insertCond,
      Arc.block, Arc.waypoint, Arc.phaseBounds, Arc.p0, Arc.p2, Arc.cornerXY,
      Arc.global_progress_divisor, Arc.z_range_total, Arc.bez, applyAxis,
      Arc.layerTag, c7lines, isBlockHeader, isRetraction, List.filter,
      List.countP_cons, List.countP_nil]

/-- C7 amended: an orbit block contains the retraction (relative mode plus a
negative-extrusion move) before the outbound travel and the mirroring
unretraction after the return move exactly when `retract_length > 0`; an arc
block never contains a retraction before the travel — it contains only the
unretraction sequence after the return move when `retract_length > 0`; with
`retract_length = 0` neither generator injects any extrusion line. -/
theorem claim7_amended_retraction_placement :
    (∀ (cosD sinD : ℚ → ℚ) (s : Orbit.Settings) (d : Orbit.Derived)
        (st : Orbit.State),
        (Orbit.block cosD sinD s d st).1.filter isExtrude =
          (if s.retract_length > 0 then
            [.extrude (-s.retract_length) (s.retract_speed * 60),
             .extrude s.retract_length (s.retract_speed * 60)] else []) ∧
        ((Orbit.block cosD sinD s d st).1.takeWhile
            (fun o => !isMoveTo o)).filter isExtrude =
          (if s.retract_length > 0 then
            [.extrude (-s.retract_length) (s.retract_speed * 60)] else [])) ∧
    (∀ (s : Arc.Settings) (st : Arc.State),
        (Arc.block s st).1.filter isExtrude =
          (if s.retract_length > 0 then
            [.extrude s.retract_length (s.retract_speed * 60)] else []) ∧
        ((Arc.block s st).1.takeWhile (fun o => !isMoveTo o)).filter isExtrude
          = []) :=
  ⟨fun cosD sinD s d st =>
    ⟨(orbit_block_eval cosD sinD s d st).2.2.2.2.2.1,
     (orbit_block_eval cosD sinD s d st).2.2.2.2.2.2⟩,
   fun s st =>
    ⟨(arc_block_eval s st).2.2.2.2.2.1, (arc_block_eval s st).2.2.2.2.2.2⟩⟩

/-- C8 (code bug, evaluated): on `G1 Z1.0`, `G1 Z1.2 ;LAYER:2`, `G1 X5.0`,
arc.py's explicit marker fires layer 2 on the second line without resetting
the distinct-Z baseline (it stays 1.0), so the third line's Z-delta fallback
fires a second event for the same physical transition, pushing the logical
layer to 3; under the claim the baseline would be reset to 1.2 and no event
would fire on the third line. -/
theorem claim8_stale_baseline_eval :
    (Arc.stateAfter {} (c8lines.take 2)).current_logical_layer = 2 ∧
    (Arc.stateAfter {} (c8lines.take 2)).current_z_for_distinct_layer_check = 1 ∧
    (Arc.stateAfter {} c8lines).current_logical_layer = 3 := by
  refine ⟨?_, ?_, ?_⟩ <;>
    norm_num [Arc.stateAfter, Arc.step, Arc.track, Arc.detect, Arc.insertCond,
      Arc.block, Arc.waypoint, Arc.phaseBounds, Arc.p0, Arc.p2, Arc.cornerXY,
      Arc.global_progress_divisor, Arc.z_range_total, Arc.bez, applyAxis,
      Arc.layerTag, c8lines, List.foldl, List.take, abs_of_nonneg]

/-- C9 (code bug, evaluated): with no metadata in the settings and none in
the input, orbit.py's `run` does not complete with defaults — building the
model-bbox preamble comment float-formats the unresolved `None` fields and
raises `TypeError`. -/
theorem claim9_metadata_crash_eval :
    Orbit.run (fun _ => 1) (fun _ => 0) {} c9lines =
      Except.error Orbit.PyErr.typeError := by
  norm_num [c9lines, Orbit.run, Orbit.resolveMeta, Orbit.parse_gcode_info,
    Orbit.parseLoop, Orbit.infoStep, Orbit.derive, Orbit.headerLines, pyRound]

/-- C10: for both generators, the returned snapshot-point list is exactly the
sequence of targets of the injected outbound travel moves, in emission order,
with exactly one outbound travel per injected block (block headers and
outbound travels are equinumerous). -/
theorem claim10_snapshot_points_exact :
    (∀ (s : Arc.Settings) (lines : List GLine),
        (Arc.run s lines).2 = (Arc.run s lines).1.filterMap moveToTarget ∧
        (Arc.run s lines).1.countP isMoveTo =
          (Arc.run s lines).1.countP isBlockHeader) ∧
    (∀ (cosD sinD : ℚ → ℚ) (s : Orbit.Settings) (lines : List GLine)
        (res : List OutLine × List (ℚ × ℚ × ℚ)),
        Orbit.run cosD sinD s lines = Except.ok res →
        res.2 = res.1.filterMap moveToTarget ∧
        res.1.countP isMoveTo = res.1.countP isBlockHeader) := by
  constructor
  · intro s lines
    exact arc_loop_points s lines {}
  · intro cosD sinD s lines res h
    obtain ⟨hdr, hh, h1, h2⟩ := Orbit.run_ok h
    obtain ⟨hc1, hc2, hc3⟩ := Orbit.header_clean hh
    obtain ⟨hl1, hl2⟩ := orbit_loop_points cosD sinD s
      (Orbit.derive s (Orbit.resolveMeta s lines)) lines {}
    constructor
    · rw [h1, h2, List.filterMap_append, hc1, List.nil_append, hl1]
    · rw [h1, List.countP_append, List.countP_append, hc2, hc3, hl2]

/-- Witness for C10: a concrete successful orbit run (dwell disabled) on a
one-line input. -/
theorem claim10_witness :
    Orbit.run (fun _ => 1) (fun _ => 0) w10cfg w1lines = Except.ok w10res ∧
    w10res.2 = w10res.1.filterMap moveToTarget ∧
    w10res.1.countP isMoveTo = w10res.1.countP isBlockHeader := by
  have h : Orbit.run (fun _ => 1) (fun _ => 0) w10cfg w1lines = Except.ok w10res := by
    norm_num [w10res, w10cfg, w1lines, Orbit.run, Orbit.resolveMeta,
      Orbit.parse_gcode_info, Orbit.parseLoop, Orbit.infoStep, Orbit.derive,
      Orbit.headerLines, Orbit.loop, Orbit.step, Orbit.track, Orbit.detect,
      Orbit.isTrigger, Orbit.should_insert_snapshot, Orbit.block, pyRound,
      Except.toOption]
  exact ⟨h, (claim10_snapshot_points_exact.2 _ _ _ _ _ h).1,
    (claim10_snapshot_points_exact.2 _ _ _ _ _ h).2⟩

end PrintPath
